import Mathlib

/-!
Shallow embedding of the FortiGate MCP server core
(`src/fortigate_mcp/core/fortigate.py` and
`src/fortigate_mcp/formatting/templates.py`) together with theorems
settling the specification claims about it.
-/

namespace FortiGateMCP

/-- Prefix test on char lists (`l` starts with `pat`). -/
def charsStart : List Char → List Char → Bool
  | [], _ => true
  | _ :: _, [] => false
  | a :: p, b :: l => a == b && charsStart p l

/-- Substring occurrence on char lists: `pat` occurs contiguously in the list. -/
def charsOccur (pat : List Char) : List Char → Bool
  | [] => pat.isEmpty
  | b :: l => charsStart pat (b :: l) || charsOccur pat l

/-- Python substring test `pat in s` (the `in` operator on strings). -/
def containsSub (s pat : String) : Bool :=
  charsOccur pat.toList s.toList

/-- Python `s.lower()`, modelled at ASCII level on the char list. -/
def lowerChars (s : String) : List Char :=
  s.toList.map Char.toLower

/-- An element of a policy-document array field (`srcaddr`, `dstaddr`,
`service`, `srcintf`, `dstintf`): the appliance emits either bare strings
or `\x7bname: ...\x7d` objects, and the formatter handles both with
`isinstance(addr, dict)` branches.  `obj name` carries the value of the
object\x27s `name` key (`none` when the key is absent). -/
inductive JRef where
  | str (s : String)
  | obj (name : Option String)
deriving DecidableEq, Repr

/-- The check `addr.get('name') == target if isinstance(addr, dict) else addr == target`
applied to one element. -/
def refNameIs (target : String) : JRef → Bool
  | .str s => s == target
  | .obj name => name == some target

/-- `any(... for addr in l)` over an array field, with `refNameIs`. -/
def anyRefNamed (target : String) (l : List JRef) : Bool :=
  l.any (refNameIs target)

/-- Python `str(intf)` on an interface-array element, as used by
`_analyze_policy_security`: identity on strings, `repr`-style rendering
on `\x7bname: ...\x7d` objects. -/
def pyStrRef : JRef → String
  | .str s => s
  | .obj (some n) => "\x7b\x27name\x27: \x27" ++ n ++ "\x27\x7d"
  | .obj none => "\x7b\x7d"

/-- `'pat' in str(intf).lower()` for one interface element. -/
def intfContains (pat : String) (intf : JRef) : Bool :=
  charsOccur pat.toList (lowerChars (pyStrRef intf))

/-- Truthiness of an optional string attribute under Python rules:
`None` and the empty string are falsy (`if not policy.get('av-profile')`). -/
def truthy : Option String → Bool
  | none => false
  | some s => s != ""

/-- A firewall policy document, restricted to the attributes the
security analysis and recommendation code reads.  Each field models the
result of `policy.get(key)` (`none` = key absent) or `policy.get(key, [])`. -/
structure Policy where
  srcaddr : List JRef
  dstaddr : List JRef
  service : List JRef
  logtraffic : Option String
  av_profile : Option String
  ips_sensor : Option String
  application_list : Option String
  webfilter_profile : Option String
  srcintf : List JRef
  dstintf : List JRef
  action : Option String
  nat : Option String
deriving DecidableEq

/-- The `wan_to_lan` condition of `_analyze_policy_security` (lines 410-411):
some source interface whose `str(...).lower()` contains `wan`, and some
destination interface containing `internal` or `lan`. -/
def wan_to_lan (p : Policy) : Bool :=
  (p.srcintf.any (intfContains "wan")) &&
  (p.dstintf.any (fun intf => intfContains "internal" intf || intfContains "lan" intf))

/-- `FortiGateTemplates._analyze_policy_security` (templates.py lines 367-420):
sequentially accumulates a risk score and a factor list through seven
guarded additions, substitutes a no-risk message when no factor fired,
and caps the score at 10. -/
def _analyze_policy_security (p : Policy) : Nat × List String :=
  let s0 : Nat := 0
  let f0 : List String := []
  let s1 := if anyRefNamed "all" p.srcaddr then s0 + 3 else s0
  let f1 := if anyRefNamed "all" p.srcaddr then
    f0 ++ ["🚨 Kaynak adres \x27all\x27 - Global erişim"] else f0
  let s2 := if anyRefNamed "all" p.dstaddr then s1 + 2 else s1
  let f2 := if anyRefNamed "all" p.dstaddr then
    f1 ++ ["⚠️ Hedef adres \x27all\x27 - Geniş hedef erişimi"] else f1
  let s3 := if anyRefNamed "ALL" p.service then s2 + 2 else s2
  let f3 := if anyRefNamed "ALL" p.service then
    f2 ++ ["⚠️ Servis \x27ALL\x27 - Tüm portlar açık"] else f2
  let s4 := if p.logtraffic != some "all" then s3 + 1 else s3
  let f4 := if p.logtraffic != some "all" then
    f3 ++ ["📝 Log kaydı devre dışı"] else f3
  let s5 := if !(truthy p.av_profile) then s4 + 1 else s4
  let f5 := if !(truthy p.av_profile) then
    f4 ++ ["🦠 Antivirus profili yok"] else f4
  let s6 := if !(truthy p.ips_sensor) then s5 + 1 else s5
  let f6 := if !(truthy p.ips_sensor) then
    f5 ++ ["🛡️ IPS sensörü yok"] else f5
  let s7 := if wan_to_lan p && !(truthy p.ips_sensor) then s6 + 2 else s6
  let f7 := if wan_to_lan p && !(truthy p.ips_sensor) then
    f6 ++ ["🌐 WAN\x27dan LAN\x27a erişim - IPS koruması yok"] else f6
  let factors := if f7.isEmpty then ["✅ Belirgin güvenlik riski tespit edilmedi"] else f7
  (min s7 10, factors)

/-- The itemized additive risk contract of spec §4.3, written as a plain
sum of weighted indicators (the spec-side reference for claim C1). -/
def specRiskSum (p : Policy) : Nat :=
  (if anyRefNamed "all" p.srcaddr then 3 else 0)
  + (if anyRefNamed "all" p.dstaddr then 2 else 0)
  + (if anyRefNamed "ALL" p.service then 2 else 0)
  + (if p.logtraffic != some "all" then 1 else 0)
  + (if !(truthy p.av_profile) then 1 else 0)
  + (if !(truthy p.ips_sensor) then 1 else 0)
  + (if wan_to_lan p && !(truthy p.ips_sensor) then 2 else 0)

/-- The seven checks of the §4.3 scoring contract, in contract order,
as booleans (`true` = check violated / surcharge applies). -/
def scoringChecks (p : Policy) : List Bool :=
  [ anyRefNamed "all" p.srcaddr
  , anyRefNamed "all" p.dstaddr
  , anyRefNamed "ALL" p.service
  , p.logtraffic != some "all"
  , !(truthy p.av_profile)
  , !(truthy p.ips_sensor)
  , wan_to_lan p && !(truthy p.ips_sensor) ]

/-- Number of violated checks of the §4.3 scoring contract. -/
def scoringViolationCount (p : Policy) : Nat :=
  (scoringChecks p).count true

/-- `FortiGateTemplates._get_policy_recommendations` (templates.py lines
422-460): sequentially appends one advisory per fired check of its own
eight-check list. -/
def _get_policy_recommendations (p : Policy) : List String :=
  let r0 : List String := []
  let r1 := if anyRefNamed "all" p.srcaddr then
    r0 ++ ["Kaynak adresini daha spesifik hale getirin (belirli IP aralıkları)"] else r0
  let r2 := if anyRefNamed "ALL" p.service then
    r1 ++ ["Servis tanımını spesifik portlarla sınırlayın"] else r1
  let r3 := if p.logtraffic != some "all" then
    r2 ++ ["Trafik loglamasını etkinleştirin (security ve utm)"] else r2
  let r4 := if !(truthy p.av_profile) then
    r3 ++ ["Antivirus profili ekleyin"] else r3
  let r5 := if !(truthy p.ips_sensor) then
    r4 ++ ["IPS sensörü ekleyin"] else r4
  let r6 := if !(truthy p.application_list) then
    r5 ++ ["Uygulama kontrolü profili ekleyin"] else r5
  let r7 := if !(truthy p.webfilter_profile) then
    r6 ++ ["Web filtreleme profili ekleyin"] else r6
  let r8 := if p.action == some "accept" && !(truthy p.nat)
               && p.dstintf.any (intfContains "wan") then
    r7 ++ ["İnternete çıkış için NAT\x27ı etkinleştirin"] else r7
  r8

/-- The recommendation code\x27s own check list: condition and advisory,
in source order (used to state the amended claim C2). -/
def recommendationChecks (p : Policy) : List (Bool × String) :=
  [ (anyRefNamed "all" p.srcaddr,
     "Kaynak adresini daha spesifik hale getirin (belirli IP aralıkları)")
  , (anyRefNamed "ALL" p.service,
     "Servis tanımını spesifik portlarla sınırlayın")
  , (p.logtraffic != some "all",
     "Trafik loglamasını etkinleştirin (security ve utm)")
  , (!(truthy p.av_profile), "Antivirus profili ekleyin")
  , (!(truthy p.ips_sensor), "IPS sensörü ekleyin")
  , (!(truthy p.application_list), "Uygulama kontrolü profili ekleyin")
  , (!(truthy p.webfilter_profile), "Web filtreleme profili ekleyin")
  , (p.action == some "accept" && !(truthy p.nat)
       && p.dstintf.any (intfContains "wan"),
     "İnternete çıkış için NAT\x27ı etkinleştirin") ]

/-- The score component of `_analyze_policy_security`, abstracted over the
seven check booleans (definitionally equal to the source\x27s sequential
accumulation chain). -/
def scoreChain (c1 c2 c3 c4 c5 c6 c7 : Bool) : Nat :=
  let s0 : Nat := 0
  let s1 := if c1 then s0 + 3 else s0
  let s2 := if c2 then s1 + 2 else s1
  let s3 := if c3 then s2 + 2 else s2
  let s4 := if c4 then s3 + 1 else s3
  let s5 := if c5 then s4 + 1 else s4
  let s6 := if c6 then s5 + 1 else s5
  let s7 := if c7 then s6 + 2 else s6
  min s7 10

lemma scoreChain_eq (c1 c2 c3 c4 c5 c6 c7 : Bool) :
    scoreChain c1 c2 c3 c4 c5 c6 c7 =
      min ((if c1 then 3 else 0) + (if c2 then 2 else 0) + (if c3 then 2 else 0)
        + (if c4 then 1 else 0) + (if c5 then 1 else 0) + (if c6 then 1 else 0)
        + (if c7 then 2 else 0)) 10 := by
  cases c1 <;> cases c2 <;> cases c3 <;> cases c4 <;> cases c5 <;> cases c6 <;>
    cases c7 <;> rfl

/-- C1: for every firewall policy document, the risk score returned by
`_analyze_policy_security` is exactly the additive sum of the seven
itemized §4.3 surcharges, capped at 10, and recomputing on the same
document yields the same integer and the same factor list. -/
theorem riskScore_additive_capped_deterministic (p : Policy) :
    (_analyze_policy_security p).1 = min (specRiskSum p) 10
    ∧ _analyze_policy_security p = _analyze_policy_security p :=
  ⟨scoreChain_eq (anyRefNamed "all" p.srcaddr) (anyRefNamed "all" p.dstaddr)
    (anyRefNamed "ALL" p.service) (p.logtraffic != some "all")
    (!(truthy p.av_profile)) (!(truthy p.ips_sensor))
    (wan_to_lan p && !(truthy p.ips_sensor)), rfl⟩

/-- A policy whose only violated §4.3 scoring check is the
destination-address wildcard: destination `all`, everything else benign. -/
def dstAllPolicy : Policy :=
  { srcaddr := [.str "corp-net"]
  , dstaddr := [.str "all"]
  , service := [.str "HTTP"]
  , logtraffic := some "all"
  , av_profile := some "av1"
  , ips_sensor := some "ips1"
  , application_list := some "app1"
  , webfilter_profile := some "web1"
  , srcintf := [.str "port1"]
  , dstintf := [.str "port2"]
  , action := some "accept"
  , nat := some "enable" }

/-- C2 counterexample: on `dstAllPolicy` exactly one §4.3 scoring check is
violated (destination address `all`), yet `_get_policy_recommendations`
returns no advisory at all, so the recommendation list does not contain
one advisory per violated scoring check. -/
theorem recommendations_mismatch_scoring_checks :
    ¬ ((_get_policy_recommendations dstAllPolicy).length
        = scoringViolationCount dstAllPolicy) := by decide

/-- The recommendation list of `_get_policy_recommendations`, abstracted
over its eight check booleans and advisory strings (definitionally equal
to the source\x27s sequential append chain). -/
def recChain (c1 c2 c3 c4 c5 c6 c7 c8 : Bool)
    (m1 m2 m3 m4 m5 m6 m7 m8 : String) : List String :=
  let r0 : List String := []
  let r1 := if c1 then r0 ++ [m1] else r0
  let r2 := if c2 then r1 ++ [m2] else r1
  let r3 := if c3 then r2 ++ [m3] else r2
  let r4 := if c4 then r3 ++ [m4] else r3
  let r5 := if c5 then r4 ++ [m5] else r4
  let r6 := if c6 then r5 ++ [m6] else r5
  let r7 := if c7 then r6 ++ [m7] else r6
  let r8 := if c8 then r7 ++ [m8] else r7
  r8

lemma recChain_eq (c1 c2 c3 c4 c5 c6 c7 c8 : Bool)
    (m1 m2 m3 m4 m5 m6 m7 m8 : String) :
    recChain c1 c2 c3 c4 c5 c6 c7 c8 m1 m2 m3 m4 m5 m6 m7 m8 =
      (([(c1,m1),(c2,m2),(c3,m3),(c4,m4),(c5,m5),(c6,m6),(c7,m7),(c8,m8)].filter
          (fun c => c.1)).map (fun c => c.2)) := by
  cases c1 <;> cases c2 <;> cases c3 <;> cases c4 <;> cases c5 <;> cases c6 <;>
    cases c7 <;> cases c8 <;> rfl

/-- C2 amended: for every policy document, the recommendation list
contains exactly one advisory per violated check of the code\x27s own
eight-check advisory list (`recommendationChecks`: source-address `all`,
service `ALL`, logging not `all`, no antivirus, no IPS, no application
control, no web filter, accept-without-NAT toward a wan interface), in
that order; the scoring contract\x27s destination-address and wan-to-lan
checks have no advisory. -/
theorem recommendations_follow_own_checklist (p : Policy) :
    _get_policy_recommendations p
      = ((recommendationChecks p).filter (fun c => c.1)).map (fun c => c.2) :=
  recChain_eq (anyRefNamed "all" p.srcaddr) (anyRefNamed "ALL" p.service)
    (p.logtraffic != some "all") (!(truthy p.av_profile)) (!(truthy p.ips_sensor))
    (!(truthy p.application_list)) (!(truthy p.webfilter_profile))
    (p.action == some "accept" && !(truthy p.nat)
      && p.dstintf.any (intfContains "wan"))
    _ _ _ _ _ _ _ _

/-! ## Core device session and registry (`core/fortigate.py`) -/

/-- A JSON value, as decoded by `response.json()`. -/
inductive JVal where
  | null
  | bool (b : Bool)
  | num (n : Int)
  | str (s : String)
  | arr (elems : List JVal)
  | obj (fields : List (String × JVal))

/-- Python membership test `key in v` on a decoded JSON value: key lookup
on dicts, element equality on lists (a JSON element equals the string
`key` exactly when it is that string), substring on strings; `none`
models the `TypeError` raised on the remaining types. -/
def jContains (v : JVal) (key : String) : Option Bool :=
  match v with
  | .obj fields => some (fields.any (fun f => f.1 == key))
  | .arr elems => some (elems.any (fun e => match e with
      | .str s => s == key
      | _ => false))
  | .str s => some (containsSub s key)
  | _ => none

/-- Python subscript `v[key]` with a string key: field lookup on dicts
(`none` models `KeyError`); `none` also models the `TypeError` raised on
every other type. -/
def jGetItem (v : JVal) (key : String) : Option JVal :=
  match v with
  | .obj fields => (fields.find? (fun f => f.1 == key)).map (fun f => f.2)
  | _ => none

mutual
/-- Python `str(v)` on a decoded JSON value, as interpolated into the
error message f-string: identity on strings, `repr`-style otherwise. -/
def pyToStr : JVal → String
  | .str s => s
  | v => pyReprJ v

/-- Python `repr(v)` on a decoded JSON value. -/
def pyReprJ : JVal → String
  | .null => "None"
  | .bool true => "True"
  | .bool false => "False"
  | .num n => toString n
  | .str s => "\x27" ++ s ++ "\x27"
  | .arr es => "[" ++ pyReprList es ++ "]"
  | .obj fs => "\x7b" ++ pyReprFields fs ++ "\x7d"

/-- Comma-joined `repr` of list elements. -/
def pyReprList : List JVal → String
  | [] => ""
  | [e] => pyReprJ e
  | e :: rest => pyReprJ e ++ ", " ++ pyReprList rest

/-- Comma-joined `repr` of dict fields. -/
def pyReprFields : List (String × JVal) → String
  | [] => ""
  | [f] => "\x27" ++ f.1 ++ "\x27: " ++ pyReprJ f.2
  | f :: rest => "\x27" ++ f.1 ++ "\x27: " ++ pyReprJ f.2 ++ ", " ++ pyReprFields rest
end

/-- The body of an HTTP response: either it parses as JSON (carrying both
the decoded value and the raw text, which the error path may still use),
or it does not (`response.json()` raises) and only the raw text exists. -/
inductive RespBody where
  | json (v : JVal) (text : String)
  | notJson (text : String)

/-- Outcome of one HTTP exchange, the environment input of
`_make_request`: either a response arrived (any status) or the transport
failed (`httpx.RequestError`: DNS, TLS, connect or read timeout). -/
inductive HttpOutcome where
  | response (status : Nat) (body : RespBody)
  | transportError (msg : String)

/-- `FortiGateDeviceConfig` (consumed by `core/fortigate.py`; field set
and defaults as in `FortiGateManager.add_device`, lines 317-347). -/
structure FortiGateDeviceConfig where
  host : String
  port : Nat
  username : Option String
  password : Option String
  api_token : Option String
  vdom : String
  verify_ssl : Bool
  timeout : Nat
deriving DecidableEq

/-- `FortiGateAPIError` (fortigate.py lines 19-26): message plus optional
status code and device id. -/
structure FortiGateAPIError where
  message : String
  status_code : Option Nat
  device_id : Option String
deriving DecidableEq

/-- `FortiGateAPI` client state as set up by `__init__`
(fortigate.py lines 38-67). -/
structure FortiGateAPI where
  device_id : String
  config : FortiGateDeviceConfig
  base_url : String
  headers : List (String × String)
  auth_method : String
  basic_auth : Option (String × String)
deriving DecidableEq

/-- `FortiGateAPI.__init__` (lines 38-67): builds the base URL and
headers, then resolves the auth method — `api_token` (when truthy) wins,
else `username and password`, else `ValueError`. -/
def FortiGateAPI.init (device_id : String) (config : FortiGateDeviceConfig) :
    Except String FortiGateAPI :=
  let base_url := "https://" ++ config.host ++ ":" ++ toString config.port ++ "/api/v2"
  let headers0 := [("Content-Type", "application/json"), ("Accept", "application/json")]
  if truthy config.api_token then
    .ok { device_id := device_id
        , config := config
        , base_url := base_url
        , headers := headers0
            ++ [("Authorization", "Bearer " ++ config.api_token.getD "")]
        , auth_method := "token"
        , basic_auth := none }
  else if truthy config.username && truthy config.password then
    .ok { device_id := device_id
        , config := config
        , base_url := base_url
        , headers := headers0
        , auth_method := "basic"
        , basic_auth := some (config.username.getD "", config.password.getD "") }
  else
    .error ("Device " ++ device_id
      ++ ": Either api_token or username/password must be provided")

/-- Dict assignment `d[k] = v` on an association list: replace in place
when the key exists, append otherwise. -/
def assocSet {β : Type} (d : List (String × β)) (k : String) (v : β) :
    List (String × β) :=
  if d.any (fun p => p.1 == k) then
    d.map (fun p => if p.1 == k then (k, v) else p)
  else
    d ++ [(k, v)]

/-- The query parameters `_make_request` sends (lines 95-98):
`if not params: params = \x7b\x7d` then `params["vdom"] = vdom or self.config.vdom`
(Python `or`: a `None` or empty-string override falls back to the
session default). -/
def FortiGateAPI.requestParams (api : FortiGateAPI)
    (params : Option (List (String × String))) (vdom : Option String) :
    List (String × String) :=
  let ps := match params with
    | none => []
    | some l => l
  let vdomVal := match vdom with
    | none => api.config.vdom
    | some v => if v == "" then api.config.vdom else v
  assocSet ps "vdom" vdomVal

/-- Response/error handling of `_make_request` (lines 107-153): a
transport failure raises a `FortiGateAPIError` with no status code;
a status ≥ 400 raises one carrying the status, with the message extended
by the JSON `error` field when the membership test and subscript succeed,
by the raw body text when decoding or either dict operation raises, and
by nothing when the decoded JSON simply lacks `error`; a status < 400
returns the decoded JSON, substituting `\x7b"status": "success"\x7d` for an
undecodable body. -/
def FortiGateAPI.handleResponse (api : FortiGateAPI) (outcome : HttpOutcome) :
    Except FortiGateAPIError JVal :=
  match outcome with
  | .transportError msg =>
      .error { message := "Network error: " ++ msg
             , status_code := none
             , device_id := some api.device_id }
  | .response status body =>
      if status ≥ 400 then
        let base := "API request failed: " ++ toString status
        let msg := match body with
          | .notJson text => base ++ " - " ++ text
          | .json v text =>
            match jContains v "error" with
            | none => base ++ " - " ++ text
            | some false => base
            | some true =>
              match jGetItem v "error" with
              | some ev => base ++ " - " ++ pyToStr ev
              | none => base ++ " - " ++ text
        .error { message := msg
               , status_code := some status
               , device_id := some api.device_id }
      else
        match body with
        | .json v _ => .ok v
        | .notJson _ => .ok (.obj [("status", .str "success")])

/-- `FortiGateAPI._make_request` (lines 69-153), as a function of the
session, the caller-supplied query parameters and vdom override, and the
HTTP outcome: yields the query parameters actually sent and the
classified result.  Method, endpoint and body feed only the URL, the
wire call and logging, which the embedding leaves abstract. -/
def FortiGateAPI._make_request (api : FortiGateAPI)
    (params : Option (List (String × String))) (vdom : Option String)
    (outcome : HttpOutcome) :
    List (String × String) × Except FortiGateAPIError JVal :=
  (api.requestParams params vdom, api.handleResponse outcome)

/-- `FortiGateAPI.test_connection` (lines 155-166): performs the
system-status GET (one `_make_request`, whose outcome is the environment
input here) and converts success into `true` and any raised exception
into `false`. -/
def FortiGateAPI.test_connection (api : FortiGateAPI) (outcome : HttpOutcome) :
    Bool :=
  match api.handleResponse outcome with
  | .ok _ => true
  | .error _ => false

/-- Dict read `d[k]` on an association list. -/
def assocGet {β : Type} (d : List (String × β)) (k : String) : Option β :=
  match d with
  | [] => none
  | p :: t => if p.1 == k then some p.2 else assocGet t k

/-- Key membership `device_id in self.devices`. -/
def hasDevice (devices : List (String × FortiGateAPI)) (device_id : String) :
    Bool :=
  devices.any (fun p => p.1 == device_id)

/-- `FortiGateManager.get_device` (lines 293-307): raises when the
identifier is absent, else returns the registered client. -/
def FortiGateManager.get_device (devices : List (String × FortiGateAPI))
    (device_id : String) : Except String FortiGateAPI :=
  if hasDevice devices device_id then
    match assocGet devices device_id with
    | some api => .ok api
    | none => .error ("Device \x27" ++ device_id ++ "\x27 not found")
  else
    .error ("Device \x27" ++ device_id ++ "\x27 not found")

/-- `FortiGateManager.add_device` (lines 317-351), state-passing: raises
(before any mutation) when the identifier already exists; otherwise
constructs the client — construction may itself raise, also leaving the
registry unchanged — and inserts it.  Returns the outcome together with
the registry after the call. -/
def FortiGateManager.add_device (devices : List (String × FortiGateAPI))
    (device_id : String) (cfg : FortiGateDeviceConfig) :
    Except String Unit × List (String × FortiGateAPI) :=
  if hasDevice devices device_id then
    (.error ("Device \x27" ++ device_id ++ "\x27 already exists"), devices)
  else
    match FortiGateAPI.init device_id cfg with
    | .ok api => (.ok (), assocSet devices device_id api)
    | .error e => (.error e, devices)

/-- `FortiGateManager.__init__` (lines 274-291): folds over the
configured devices, constructing each client and inserting it into the
registry; a per-device construction failure is caught and logged and the
loop continues. -/
def FortiGateManager.initRegistry
    (devices : List (String × FortiGateDeviceConfig)) :
    List (String × FortiGateAPI) :=
  devices.foldl (fun acc p =>
    match FortiGateAPI.init p.1 p.2 with
    | .ok api => assocSet acc p.1 api
    | .error _ => acc) []

/-- `FortiGateManager.test_all_connections` (lines 365-378): probes every
registered device in turn (`env` assigns each device its HTTP outcome)
and records a boolean per identifier.  The surrounding `try/except`
cannot fire because `test_connection` is total. -/
def FortiGateManager.test_all_connections
    (devices : List (String × FortiGateAPI)) (env : String → HttpOutcome) :
    List (String × Bool) :=
  devices.foldl (fun results p =>
    assocSet results p.1 (p.2.test_connection (env p.1))) []

/-! ## Concrete inputs used by witnesses -/

/-- A device configuration carrying only an API token. -/
def cfgTokenOnly : FortiGateDeviceConfig :=
  { host := "10.0.0.1", port := 443, username := none, password := none
  , api_token := some "tok", vdom := "root", verify_ssl := false, timeout := 30 }

/-- A device configuration carrying only username and password. -/
def cfgBasicOnly : FortiGateDeviceConfig :=
  { host := "10.0.0.2", port := 443, username := some "admin"
  , password := some "pw", api_token := none, vdom := "root"
  , verify_ssl := false, timeout := 30 }

/-- A device configuration with no credential at all. -/
def cfgNoCreds : FortiGateDeviceConfig :=
  { host := "10.0.0.3", port := 443, username := none, password := none
  , api_token := none, vdom := "root", verify_ssl := false, timeout := 30 }

/-- A device configuration carrying both credential forms. -/
def cfgBothCreds : FortiGateDeviceConfig :=
  { host := "10.0.0.4", port := 443, username := some "admin"
  , password := some "pw", api_token := some "tok", vdom := "root"
  , verify_ssl := false, timeout := 30 }

/-- The session `FortiGateAPI.init "d1" cfgTokenOnly` produces. -/
def apiTok : FortiGateAPI :=
  { device_id := "d1", config := cfgTokenOnly
  , base_url := "https://10.0.0.1:443/api/v2"
  , headers := [("Content-Type", "application/json"),
      ("Accept", "application/json"), ("Authorization", "Bearer tok")]
  , auth_method := "token", basic_auth := none }

/-- Sanity: `apiTok` is exactly what the constructor produces. -/
lemma apiTok_spec : FortiGateAPI.init "d1" cfgTokenOnly = .ok apiTok := rfl

/-! ## Claims C3, C4: response classification -/

/-- The error message predicted by claim C3\x27s words: the status line
with the JSON `error` field appended when the body is JSON containing
one, otherwise with the raw body text appended. -/
def claimedErrorMessage (status : Nat) (body : RespBody) : String :=
  let base := "API request failed: " ++ toString status
  match body with
  | .json v text =>
    match jGetItem v "error" with
    | some ev => base ++ " - " ++ pyToStr ev
    | none => base ++ " - " ++ text
  | .notJson text => base ++ " - " ++ text

/-- C3 counterexample: a 403 response whose body is JSON without an
`error` field.  The code raises with the bare status message — it
appends neither the error field nor the raw body text — while the claim
requires the raw body text to be appended. -/
theorem errorMessage_silent_on_json_without_error_field :
    apiTok.handleResponse (.response 403
        (.json (.obj [("detail", .str "x")]) "\x7b\"detail\": \"x\"\x7d"))
      = .error { message := "API request failed: 403"
               , status_code := some 403, device_id := some "d1" }
    ∧ "API request failed: 403"
        ≠ claimedErrorMessage 403
            (.json (.obj [("detail", .str "x")]) "\x7b\"detail\": \"x\"\x7d") :=
  ⟨rfl, by decide⟩

/-- C3 amended: every response with status ≥ 400 raises an error carrying
that status; its message appends the body\x27s `error` field when the body
is a JSON object containing one, appends nothing when the body is a JSON
object without one, and appends the raw body text when the body is not
valid JSON; a transport-level failure raises an error with no status
code. -/
theorem error_classification (api : FortiGateAPI) (status : Nat)
    (h : 400 ≤ status) (fields : List (String × JVal)) (text netMsg : String) :
    (∀ fe, fields.find? (fun f => f.1 == "error") = some fe →
      api.handleResponse (.response status (.json (.obj fields) text))
        = .error { message := "API request failed: " ++ toString status
                     ++ " - " ++ pyToStr fe.2
                 , status_code := some status, device_id := some api.device_id })
    ∧ (fields.find? (fun f => f.1 == "error") = none →
      api.handleResponse (.response status (.json (.obj fields) text))
        = .error { message := "API request failed: " ++ toString status
                 , status_code := some status, device_id := some api.device_id })
    ∧ api.handleResponse (.response status (.notJson text))
        = .error { message := "API request failed: " ++ toString status
                     ++ " - " ++ text
                 , status_code := some status, device_id := some api.device_id }
    ∧ api.handleResponse (.transportError netMsg)
        = .error { message := "Network error: " ++ netMsg
                 , status_code := none, device_id := some api.device_id } := by
  refine ⟨?_, ?_, ?_, ?_⟩
  · intro fe hfe
    have hmem : fe ∈ fields := List.mem_of_find?_eq_some hfe
    have hp := List.find?_some hfe
    have hany : fields.any (fun f => f.1 == "error") = true :=
      List.any_eq_true.mpr ⟨fe, hmem, hp⟩
    simp [FortiGateAPI.handleResponse, jContains, jGetItem, h, hany, hfe]
  · intro hnone
    have hany : fields.any (fun f => f.1 == "error") = false := by
      rw [List.any_eq_false]
      intro f hf
      have := List.find?_eq_none.mp hnone f hf
      simpa using this
    simp [FortiGateAPI.handleResponse, jContains, h, hany]
  · simp [FortiGateAPI.handleResponse, h]
  · simp [FortiGateAPI.handleResponse]

/-- Witness for `error_classification`: the spec\x27s end-to-end 403
scenario with body `\x7b"error": "permission denied"\x7d`, and a transport
timeout. -/
theorem error_classification_witness :
    apiTok.handleResponse (.response 403
        (.json (.obj [("error", JVal.str "permission denied")]) "t"))
      = .error { message := "API request failed: 403 - permission denied"
               , status_code := some 403, device_id := some "d1" }
    ∧ apiTok.handleResponse (.transportError "timeout")
      = .error { message := "Network error: timeout"
               , status_code := none, device_id := some "d1" } :=
  ⟨(error_classification apiTok 403 (by decide)
        [("error", JVal.str "permission denied")] "t" "timeout").1
      ("error", JVal.str "permission denied") rfl,
   (error_classification apiTok 403 (by decide) [] "t" "timeout").2.2.2⟩

/-- C4: every response with status < 400 yields the decoded JSON body
unchanged, and an empty or undecodable body yields the substitute object
`\x7b"status": "success"\x7d` rather than a failure. -/
theorem success_returns_decoded_json (api : FortiGateAPI) (status : Nat)
    (h : status < 400) (v : JVal) (text raw : String) :
    api.handleResponse (.response status (.json v text)) = .ok v
    ∧ api.handleResponse (.response status (.notJson raw))
        = .ok (.obj [("status", .str "success")]) := by
  have hge : ¬ (status ≥ 400) := by omega
  constructor <;> simp [FortiGateAPI.handleResponse, hge]

/-- Witness for `success_returns_decoded_json`: the spec\x27s end-to-end
200 scenario with a `results` payload, and an empty body. -/
theorem success_returns_decoded_json_witness :
    apiTok.handleResponse (.response 200
        (.json (.obj [("results", .arr [.obj [("policyid", .num 1)]])]) "t"))
      = .ok (.obj [("results", .arr [.obj [("policyid", .num 1)]])])
    ∧ apiTok.handleResponse (.response 200 (.notJson ""))
      = .ok (.obj [("status", .str "success")]) :=
  success_returns_decoded_json apiTok 200 (by decide) _ "t" ""

/-! ## Claims C5, C10: constructor credential resolution -/

/-- C5: with only a truthy `api_token` the constructor succeeds in
`token` mode; with only truthy `username`/`password` it succeeds in
`basic` mode; with neither credential form it raises. -/
theorem init_auth_mode_resolution (device_id : String)
    (cfg : FortiGateDeviceConfig) :
    (truthy cfg.api_token = true ∧ truthy cfg.username = false
        ∧ truthy cfg.password = false →
      (FortiGateAPI.init device_id cfg).map (fun api => api.auth_method)
        = .ok "token")
    ∧ (truthy cfg.api_token = false ∧ truthy cfg.username = true
        ∧ truthy cfg.password = true →
      (FortiGateAPI.init device_id cfg).map (fun api => api.auth_method)
        = .ok "basic")
    ∧ (truthy cfg.api_token = false
        ∧ (truthy cfg.username && truthy cfg.password) = false →
      FortiGateAPI.init device_id cfg
        = .error ("Device " ++ device_id
            ++ ": Either api_token or username/password must be provided")) := by
  refine ⟨?_, ?_, ?_⟩
  · rintro ⟨h1, -, -⟩
    simp [FortiGateAPI.init, h1, Except.map]
  · rintro ⟨h1, h2, h3⟩
    simp [FortiGateAPI.init, h1, h2, h3, Except.map]
  · rintro ⟨h1, h2⟩
    simp [FortiGateAPI.init, h1, h2]

/-- Witness for `init_auth_mode_resolution` on the three concrete
credential configurations. -/
theorem init_auth_mode_resolution_witness :
    (FortiGateAPI.init "d1" cfgTokenOnly).map (fun api => api.auth_method)
      = .ok "token"
    ∧ (FortiGateAPI.init "d2" cfgBasicOnly).map (fun api => api.auth_method)
      = .ok "basic"
    ∧ FortiGateAPI.init "d3" cfgNoCreds
      = .error "Device d3: Either api_token or username/password must be provided" :=
  ⟨(init_auth_mode_resolution "d1" cfgTokenOnly).1 (by decide),
   (init_auth_mode_resolution "d2" cfgBasicOnly).2.1 (by decide),
   (init_auth_mode_resolution "d3" cfgNoCreds).2.2 (by decide)⟩

/-- C10: when a truthy `api_token` and a truthy `username`/`password`
pair are both present, construction succeeds and the token wins: the
auth mode is `token`. -/
theorem init_token_precedence (device_id : String)
    (cfg : FortiGateDeviceConfig) (h1 : truthy cfg.api_token = true)
    (_h2 : truthy cfg.username = true) (_h3 : truthy cfg.password = true) :
    (FortiGateAPI.init device_id cfg).map (fun api => api.auth_method)
      = .ok "token" := by
  simp [FortiGateAPI.init, h1, Except.map]

/-- Witness for `init_token_precedence` on a configuration carrying both
credential forms. -/
theorem init_token_precedence_witness :
    (FortiGateAPI.init "d4" cfgBothCreds).map (fun api => api.auth_method)
      = .ok "token" :=
  init_token_precedence "d4" cfgBothCreds (by decide) (by decide) (by decide)

/-! ## Claim C6: duplicate registration -/

/-- C6: `add_device` on an identifier already present fails with the
duplicate-device error and leaves the registry — in particular the
session registered under that identifier — untouched. -/
theorem add_device_duplicate_unchanged (devices : List (String × FortiGateAPI))
    (device_id : String) (cfg : FortiGateDeviceConfig)
    (h : hasDevice devices device_id = true) :
    (FortiGateManager.add_device devices device_id cfg).1
      = .error ("Device \x27" ++ device_id ++ "\x27 already exists")
    ∧ (FortiGateManager.add_device devices device_id cfg).2 = devices
    ∧ assocGet (FortiGateManager.add_device devices device_id cfg).2 device_id
      = assocGet devices device_id := by
  simp [FortiGateManager.add_device, h]

/-- Witness for `add_device_duplicate_unchanged` on a one-device
registry. -/
theorem add_device_duplicate_unchanged_witness :
    (FortiGateManager.add_device [("d1", apiTok)] "d1" cfgBasicOnly).1
      = .error "Device \x27d1\x27 already exists"
    ∧ (FortiGateManager.add_device [("d1", apiTok)] "d1" cfgBasicOnly).2
      = [("d1", apiTok)]
    ∧ assocGet (FortiGateManager.add_device [("d1", apiTok)] "d1" cfgBasicOnly).2 "d1"
      = assocGet [("d1", apiTok)] "d1" :=
  add_device_duplicate_unchanged [("d1", apiTok)] "d1" cfgBasicOnly (by decide)

/-! ## Claim C7: bulk registry construction -/

lemma assocSet_fresh {β : Type} (d : List (String × β)) (k : String) (v : β)
    (h : d.any (fun p => p.1 == k) = false) :
    assocSet d k v = d ++ [(k, v)] := by
  simp [assocSet, h]

lemma initRegistry_go (devices : List (String × FortiGateDeviceConfig)) :
    ∀ acc : List (String × FortiGateAPI),
      (∀ k ∈ devices.map Prod.fst, acc.any (fun q => q.1 == k) = false) →
      (devices.map Prod.fst).Nodup →
      devices.foldl (fun acc p =>
        match FortiGateAPI.init p.1 p.2 with
        | .ok api => assocSet acc p.1 api
        | .error _ => acc) acc
      = acc ++ devices.filterMap (fun p =>
          match FortiGateAPI.init p.1 p.2 with
          | .ok api => some (p.1, api)
          | .error _ => none) := by
  induction devices with
  | nil => intro acc _ _; simp
  | cons p rest ih =>
    intro acc hfresh hnodup
    obtain ⟨k, a⟩ := p
    have hknotin : k ∉ rest.map Prod.fst := (List.nodup_cons.mp hnodup).1
    have hrest : (rest.map Prod.fst).Nodup := (List.nodup_cons.mp hnodup).2
    rcases hstep : FortiGateAPI.init k a with e | api
    · simp only [List.foldl_cons, List.filterMap_cons, hstep]
      exact ih acc (fun k' hk' => hfresh k' (by simp [hk'])) hrest
    · have hacc : acc.any (fun q => q.1 == k) = false := hfresh k (by simp)
      simp only [List.foldl_cons, List.filterMap_cons, hstep,
        assocSet_fresh acc k api hacc]
      rw [ih (acc ++ [(k, api)]) ?_ hrest]
      · simp
      · intro k' hk'
        have h1 : acc.any (fun q => q.1 == k') = false := hfresh k' (by simp [hk'])
        have hne : k ≠ k' := fun hcontra => hknotin (hcontra ▸ hk')
        simp [List.any_append, h1, hne]

/-- C7: bulk construction from a static configuration mapping registers
exactly the devices whose session construction succeeds, in order, and
omits the ones whose construction fails — one malformed entry never
aborts the others. -/
theorem initRegistry_skips_failed_devices
    (devices : List (String × FortiGateDeviceConfig))
    (h : (devices.map Prod.fst).Nodup) :
    FortiGateManager.initRegistry devices
      = devices.filterMap (fun p =>
          match FortiGateAPI.init p.1 p.2 with
          | .ok api => some (p.1, api)
          | .error _ => none) := by
  have := initRegistry_go devices [] (fun k _ => rfl) h
  simpa [FortiGateManager.initRegistry] using this

/-- Witness for `initRegistry_skips_failed_devices`: a mapping whose
middle entry has no credentials. -/
theorem initRegistry_skips_failed_devices_witness :
    FortiGateManager.initRegistry
        [("d1", cfgTokenOnly), ("bad", cfgNoCreds), ("d2", cfgBasicOnly)]
      = [("d1", cfgTokenOnly), ("bad", cfgNoCreds), ("d2", cfgBasicOnly)].filterMap
          (fun p =>
            match FortiGateAPI.init p.1 p.2 with
            | .ok api => some (p.1, api)
            | .error _ => none) :=
  initRegistry_skips_failed_devices
    [("d1", cfgTokenOnly), ("bad", cfgNoCreds), ("d2", cfgBasicOnly)] (by decide)

/-! ## Claim C8: connection probing -/

lemma testAll_go (devices : List (String × FortiGateAPI))
    (env : String → HttpOutcome) :
    ∀ acc : List (String × Bool),
      (∀ k ∈ devices.map Prod.fst, acc.any (fun q => q.1 == k) = false) →
      (devices.map Prod.fst).Nodup →
      devices.foldl (fun results p =>
        assocSet results p.1 (p.2.test_connection (env p.1))) acc
      = acc ++ devices.map (fun p => (p.1, p.2.test_connection (env p.1))) := by
  induction devices with
  | nil => intro acc _ _; simp
  | cons p rest ih =>
    intro acc hfresh hnodup
    obtain ⟨k, a⟩ := p
    have hknotin : k ∉ rest.map Prod.fst := (List.nodup_cons.mp hnodup).1
    have hrest : (rest.map Prod.fst).Nodup := (List.nodup_cons.mp hnodup).2
    have hacc : acc.any (fun q => q.1 == k) = false := hfresh k (by simp)
    simp only [List.foldl_cons, List.map_cons,
      assocSet_fresh acc k (a.test_connection (env k)) hacc]
    rw [ih (acc ++ [(k, a.test_connection (env k))]) ?_ hrest]
    · simp
    · intro k' hk'
      have h1 : acc.any (fun q => q.1 == k') = false := hfresh k' (by simp [hk'])
      have hne : k ≠ k' := fun hcontra => hknotin (hcontra ▸ hk')
      simp [List.any_append, h1, hne]

lemma assocGet_map_isSome {β γ : Type} (f : String × β → γ) (k : String) :
    ∀ d : List (String × β),
      (assocGet (d.map (fun p => (p.1, f p))) k).isSome
        = (assocGet d k).isSome := by
  intro d
  induction d with
  | nil => rfl
  | cons p t ih => cases hb : (p.1 == k) <;> simp [assocGet, hb, ih]

/-- C8: `test_all_connections` records, for every registered device in
order, the boolean produced by that device\x27s `test_connection`, so the
result has an entry exactly for every registered identifier; and
`test_connection` is total, returning `true` exactly on a successful
probe and `false` on any failure, never propagating it. -/
theorem testAll_entry_per_device (devices : List (String × FortiGateAPI))
    (env : String → HttpOutcome) (h : (devices.map Prod.fst).Nodup) :
    FortiGateManager.test_all_connections devices env
      = devices.map (fun p => (p.1, p.2.test_connection (env p.1)))
    ∧ (∀ id, (assocGet
          (FortiGateManager.test_all_connections devices env) id).isSome
        = (assocGet devices id).isSome)
    ∧ (∀ api outcome, FortiGateAPI.test_connection api outcome = true
        ↔ ∃ v, api.handleResponse outcome = .ok v) := by
  have heq : FortiGateManager.test_all_connections devices env
      = devices.map (fun p => (p.1, p.2.test_connection (env p.1))) := by
    have := testAll_go devices env [] (fun k _ => rfl) h
    simpa [FortiGateManager.test_all_connections] using this
  refine ⟨heq, ?_, ?_⟩
  · intro id
    rw [heq]
    exact assocGet_map_isSome (fun p => p.2.test_connection (env p.1)) id devices
  · intro api outcome
    unfold FortiGateAPI.test_connection
    rcases hr : api.handleResponse outcome with e | v <;> simp [hr]

/-- Witness for `testAll_entry_per_device`: a registry whose one device
is unreachable still reports an entry, with value `false`. -/
theorem testAll_entry_per_device_witness :
    FortiGateManager.test_all_connections [("d1", apiTok)]
        (fun _ => .transportError "down")
      = [("d1", false)]
    ∧ (assocGet (FortiGateManager.test_all_connections [("d1", apiTok)]
        (fun _ => .transportError "down")) "d1").isSome = true := by
  have h := testAll_entry_per_device [("d1", apiTok)]
    (fun _ => .transportError "down") (by decide)
  exact ⟨h.1.trans rfl, (h.2.1 "d1").trans rfl⟩

/-! ## Claim C9: vdom query parameter -/

lemma assocGet_set {β : Type} (k : String) (v : β) :
    ∀ d : List (String × β), assocGet (assocSet d k v) k = some v := by
  intro d
  induction d with
  | nil => simp [assocSet, assocGet]
  | cons p t ih =>
    obtain ⟨k', v'⟩ := p
    cases hb : (k' == k) with
    | true =>
      have hk : k' = k := eq_of_beq hb
      subst hk
      simp [assocSet, assocGet]
    | false =>
      have hk : ¬ k' = k := fun hcontra => by simp [hcontra] at hb
      cases ht : t.any (fun q => q.1 == k) with
      | true =>
        have iht := ih
        simp [assocSet, ht] at iht
        simp [assocSet, assocGet, hb, hk, ht, iht]
      | false =>
        have iht := ih
        simp [assocSet, ht] at iht
        simp [assocSet, assocGet, hb, hk, ht, iht]

/-- The `vdom` binding predicted by claim C9\x27s words: the override
whenever one is supplied, the session default otherwise. -/
def claimedVdom (api : FortiGateAPI) (vdom : Option String) : String :=
  match vdom with
  | some v => v
  | none => api.config.vdom

/-- C9 counterexample: supplying the empty string as the vdom override
binds the parameter to the session default (`root`), not to the supplied
override — Python\x27s `vdom or self.config.vdom` treats the empty string
as absent. -/
theorem vdom_empty_override_falls_back :
    assocGet (apiTok.requestParams none (some "")) "vdom" = some "root"
    ∧ "root" ≠ claimedVdom apiTok (some "") := ⟨rfl, by decide⟩

/-- C9 amended: every outbound request\x27s query parameters bind the key
`vdom` — whatever parameters the caller supplied — to the override when
a non-empty one is supplied, and to the session\x27s configured default
vdom otherwise (including when the override is the empty string). -/
theorem vdom_param_always_present (api : FortiGateAPI)
    (params : Option (List (String × String))) (vdom : Option String) :
    assocGet (api.requestParams params vdom) "vdom"
      = some (match vdom with
          | none => api.config.vdom
          | some v => if v == "" then api.config.vdom else v) := by
  unfold FortiGateAPI.requestParams
  exact assocGet_set "vdom" _ _

end FortiGateMCP
